import Mathlib

/-!
Verification of the business-finder pipeline.

This file embeds the core of the `business-finder` repository in Lean:
the classifier (`extractBusinessDetails` in `src/utils/logger.ts` and the
mode-aware variant of `GoogleMapsService.extractBusinessDetails`), the
batch processors (`GoogleMapsService.processBatch` in both the CLI and the
library variant), the paginating `searchNearbyPlaces`, and the
`BusinessFinder` orchestration (`searchBusinesses`,
`searchMultipleLocations`) with its deduplication step.

JavaScript `string | undefined` values are embedded as `Option String`;
JavaScript truthiness of such a value (`undefined` and `""` are falsy) is
`strTruthy`.  Network effects are embedded with oracles: a page oracle
`Nat → PageResponse` giving the upstream answer to the n-th nearby-search
request of a category, and a detail oracle
`String → Except String PlaceDetails` for the place-details call, where
`Except.error` models a rejected promise.  The paginator is embedded as a
trace-producing function so that timing (`setTimeout` cool-downs) and the
request parameters it issues are visible as data.
-/

/-- JavaScript truthiness of a `string | undefined` value:
`undefined` and the empty string are falsy. -/
def strTruthy : Option String → Bool
  | none => false
  | some s => s != ""

/-- `listPre needle hay`: `needle` is an initial segment of `hay`. -/
def listPre : List Char → List Char → Bool
  | [], _ => true
  | _ :: _, [] => false
  | a :: as, b :: bs => a == b && listPre as bs

/-- `listSub needle hay`: `needle` occurs contiguously somewhere in `hay`. -/
def listSub (needle : List Char) : List Char → Bool
  | [] => listPre needle []
  | c :: t => listPre needle (c :: t) || listSub needle t

/-- JavaScript `hay.includes(needle)` on strings. -/
def strIncludes (hay needle : String) : Bool :=
  listSub needle.data hay.data

/-- The `fields` answer of the place-details call that the pipeline
consumes (`PlaceDetails` in `src/types.ts`); every field may be absent. -/
structure PlaceDetails where
  name : Option String
  website : Option String
  formatted_address : Option String
  formatted_phone_number : Option String
  rating : Option Nat
  user_ratings_total : Option Nat
  geometry : Option (Int × Int)
deriving Repr, DecidableEq

/-- A fully absent details record: what the CLI variant's
`getPlaceDetails` returns when the underlying call fails (`return {}`). -/
def emptyDetails : PlaceDetails :=
  ⟨none, none, none, none, none, none, none⟩

/-- The classified output entity (`BusinessResult` in `src/types.ts`). -/
structure BusinessResult where
  name : String
  type : String
  hasNoWebsite : Bool
  hasSocialOnly : Bool
  website : Option String
  address : Option String
  phone : Option String
  rating : Option Nat
  totalRatings : Option Nat
  latLng : Option (Int × Int)
  place_id : Option String
  searchLocation : Option String
deriving Repr, DecidableEq

/-- The third classifier argument of the library variant:
`readonly string[] | "all"`.  `domains ds` is the
no-website-or-social-only policy with social domains `ds`;
`all` is the literal string `"all"` (the include-all policy). -/
inductive FilterMode where
  | all : FilterMode
  | domains : List String → FilterMode
deriving Repr, DecidableEq

/-- `socialMediaDomains.some((domain) => website?.includes(domain))`. -/
def websiteHits (doms : List String) (website : Option String) : Bool :=
  doms.any (fun dom => strIncludes (website.getD "") dom)

/-- The `hasSocialMediaOnly` value computed by the library classifier:
`false` when the mode is the literal `"all"`, otherwise
`hasWebsite && socialMediaDomains.some(...)`. -/
def socialFlag (mode : FilterMode) (website : Option String) : Bool :=
  match mode with
  | FilterMode.all => false
  | FilterMode.domains ds => strTruthy website && websiteHits ds website

/-- The library classifier's exclusion test: only in domain-list mode,
`hasWebsite && !hasSocialMediaOnly`. -/
def socialExcluded (mode : FilterMode) (website : Option String) : Bool :=
  match mode with
  | FilterMode.all => false
  | FilterMode.domains _ => strTruthy website && !(socialFlag mode website)

/-- `GoogleMapsService.extractBusinessDetails` of the library variant:
drops nameless records, computes `hasSocialMediaOnly`, excludes
proper-website businesses unless the mode is `"all"`, and otherwise
builds the `BusinessResult` (with `website: website || undefined`). -/
def extractBusinessDetails (placeId : String) (d : PlaceDetails)
    (placeType : String) (mode : FilterMode)
    (searchLocationName : Option String) : Option BusinessResult :=
  if strTruthy d.name = false then none
  else if socialExcluded mode d.website then none
  else some
    { name := d.name.getD ""
      type := placeType
      hasNoWebsite := !(strTruthy d.website)
      hasSocialOnly := socialFlag mode d.website
      website := if strTruthy d.website then d.website else none
      address := d.formatted_address
      phone := d.formatted_phone_number
      rating := d.rating
      totalRatings := d.user_ratings_total
      latLng := d.geometry
      place_id := some placeId
      searchLocation := searchLocationName }

/-- `extractBusinessDetails` of `src/utils/logger.ts` (the CLI variant):
always applies the no-website-or-social-only filter, and its result
record carries no `latLng`, `place_id` or `searchLocation`. -/
def extractBusinessDetailsCli (d : PlaceDetails) (placeType : String)
    (socialMediaDomains : List String) : Option BusinessResult :=
  if strTruthy d.name = false then none
  else if strTruthy d.website
      && !(strTruthy d.website && websiteHits socialMediaDomains d.website)
    then none
  else some
    { name := d.name.getD ""
      type := placeType
      hasNoWebsite := !(strTruthy d.website)
      hasSocialOnly := strTruthy d.website && websiteHits socialMediaDomains d.website
      website := if strTruthy d.website then d.website else none
      address := d.formatted_address
      phone := d.formatted_phone_number
      rating := d.rating
      totalRatings := d.user_ratings_total
      latLng := none
      place_id := none
      searchLocation := none }

/-- Claim C1: under the `ExcludeProperWebsites` policy (a domain list),
the library classifier returns `excluded` (`none`) exactly when the
detail's name is absent (falsy), or a website is present (truthy) that
matches no configured social domain; and every included `BusinessResult`
satisfies `hasNoWebsite ∨ hasSocialOnly`.  The same holds for the CLI
variant of the classifier. -/
theorem C1_exclude_policy (d : PlaceDetails) (pid pt : String)
    (ds : List String) (loc : Option String) :
    ((extractBusinessDetails pid d pt (FilterMode.domains ds) loc = none
      ↔ (strTruthy d.name = false
          ∨ (strTruthy d.website = true ∧ websiteHits ds d.website = false)))
     ∧ (extractBusinessDetails pid d pt (FilterMode.domains ds) loc).all
        (fun r => r.hasNoWebsite || r.hasSocialOnly) = true)
    ∧ ((extractBusinessDetailsCli d pt ds = none
      ↔ (strTruthy d.name = false
          ∨ (strTruthy d.website = true ∧ websiteHits ds d.website = false)))
     ∧ (extractBusinessDetailsCli d pt ds).all
        (fun r => r.hasNoWebsite || r.hasSocialOnly) = true) := by
  cases hn : strTruthy d.name <;> cases hw : strTruthy d.website <;>
    cases hh : websiteHits ds d.website <;>
      simp [extractBusinessDetails, extractBusinessDetailsCli, socialExcluded,
        socialFlag, hn, hw, hh, Option.all]

/-- Claim C10 (invariant): in both classifier variants and under either
policy, `hasNoWebsite` and `hasSocialOnly` are never both true,
`hasSocialOnly` implies the result carries a (truthy) website, and
`hasNoWebsite` holds exactly when the detail has no non-empty website. -/
theorem C10_flag_invariants (d : PlaceDetails) (pid pt : String)
    (mode : FilterMode) (loc : Option String) (ds : List String) :
    ((extractBusinessDetails pid d pt mode loc).all
      (fun r => !(r.hasNoWebsite && r.hasSocialOnly)
        && (!r.hasSocialOnly || strTruthy r.website)
        && (r.hasNoWebsite == !(strTruthy d.website))) = true)
    ∧ ((extractBusinessDetailsCli d pt ds).all
      (fun r => !(r.hasNoWebsite && r.hasSocialOnly)
        && (!r.hasSocialOnly || strTruthy r.website)
        && (r.hasNoWebsite == !(strTruthy d.website))) = true) := by
  cases mode with
  | all =>
    cases hn : strTruthy d.name <;> cases hw : strTruthy d.website <;>
      cases hh : websiteHits ds d.website <;>
        simp [extractBusinessDetails, extractBusinessDetailsCli, socialExcluded,
          socialFlag, hn, hw, hh, Option.all]
  | domains ds' =>
    cases hn : strTruthy d.name <;> cases hw : strTruthy d.website <;>
      cases hh : websiteHits ds d.website <;>
        cases hh' : websiteHits ds' d.website <;>
          simp [extractBusinessDetails, extractBusinessDetailsCli, socialExcluded,
            socialFlag, hn, hw, hh, hh', Option.all]

/-- A concrete detail record whose website is a social-media profile. -/
def dFb : PlaceDetails :=
  { name := some "Biz"
    website := some "https://facebook.com/x"
    formatted_address := none
    formatted_phone_number := none
    rating := none
    user_ratings_total := none
    geometry := none }

/-- Claim C2, counterexample: for a detail whose website matches the
configured social domain `facebook.com`, the library classifier under the
include-all policy (`"all"`) yields `hasSocialOnly = false`, while under
`ExcludeProperWebsites` it yields `hasSocialOnly = true` — so the flags
are not computed identically under both policies. -/
theorem C2_counterexample :
    (extractBusinessDetails "p1" dFb "car_repair" FilterMode.all none).map
      (fun r => r.hasSocialOnly) = some false
    ∧ (extractBusinessDetails "p1" dFb "car_repair"
        (FilterMode.domains ["facebook.com"]) none).map
      (fun r => r.hasSocialOnly) = some true := by
  constructor <;> rfl

/-- Claim C2, amended: under the include-all policy the library
classifier includes a detail exactly when its name is truthy (it never
excludes on website status), but its `hasSocialOnly` flag is always
`false` — the `"all"` mode skips the social-domain check entirely, so a
social-media website is flagged only under `ExcludeProperWebsites`. -/
theorem C2_include_all (d : PlaceDetails) (pid pt : String)
    (loc : Option String) :
    (extractBusinessDetails pid d pt FilterMode.all loc).isSome
      = strTruthy d.name
    ∧ (extractBusinessDetails pid d pt FilterMode.all loc).all
        (fun r => !r.hasSocialOnly) = true := by
  cases hn : strTruthy d.name <;>
    simp [extractBusinessDetails, socialExcluded, socialFlag, hn, Option.all]

/-- JavaScript `Set.has`, with the set of found place identifiers
embedded as the list of identifiers in insertion order. -/
def hasId (ids : List String) (x : String) : Bool :=
  ids.any (fun q => q == x)

/-- One iteration of the `results.forEach` accumulation step of
`BusinessFinder.searchBusinesses` / `searchMultipleLocations`: push a
result with a fresh truthy `place_id` and record the identifier, always
push an identifier-less result, silently drop a duplicated identifier. -/
def dedupStep (st : List BusinessResult × List String) (b : BusinessResult) :
    List BusinessResult × List String :=
  if strTruthy b.place_id && !(hasId st.2 (b.place_id.getD "")) then
    (st.1 ++ [b], st.2 ++ [b.place_id.getD ""])
  else if !(strTruthy b.place_id) then
    (st.1 ++ [b], st.2)
  else
    st

/-- The accumulated result collection of one orchestrated run, given the
arrival order of all classified results. -/
def dedupRun (bs : List BusinessResult) : List BusinessResult :=
  (bs.foldl dedupStep ([], [])).1

theorem hasId_append (ids more : List String) (x : String) :
    hasId (ids ++ more) x = (hasId ids x || hasId more x) := by
  simp [hasId]

/-- Results with a given non-empty identifier: the fold keeps what the
initial state already kept and, unless the identifier is already
recorded, the first arriving result with that identifier. -/
theorem dedup_filter_id (p : String) (hp : p ≠ "") :
    ∀ (bs : List BusinessResult) (st : List BusinessResult × List String),
      ((bs.foldl dedupStep st).1.filter (fun b => b.place_id == some p))
        = st.1.filter (fun b => b.place_id == some p)
          ++ (if hasId st.2 p then []
              else ((bs.filter (fun b => b.place_id == some p)).take 1)) := by
  intro bs
  induction bs with
  | nil => intro st; cases h : hasId st.2 p <;> simp [h]
  | cons b bs ih =>
    intro st
    rw [List.foldl_cons, ih]
    by_cases hb : b.place_id = some p
    · have htr : strTruthy b.place_id = true := by
        rw [hb]; simp [strTruthy]; exact hp
      have hd : b.place_id.getD "" = p := by rw [hb]; rfl
      cases hc : hasId st.2 p with
      | false =>
        have : dedupStep st b = (st.1 ++ [b], st.2 ++ [p]) := by
          simp [dedupStep, htr, hd, hc]
        rw [this]
        simp [hasId_append, hasId, hc, hb]
      | true =>
        have : dedupStep st b = st := by
          simp [dedupStep, htr, hd, hc]
        rw [this]
        simp [hc, hb]
    · have hbb : (b.place_id == some p) = false := by
        simp [hb]
      by_cases ht : strTruthy b.place_id = true
      · have hne : (b.place_id.getD "" == p) = false := by
          cases hq : b.place_id with
          | none => rw [hq] at ht; simp [strTruthy] at ht
          | some s =>
            simp only [hq, Option.getD]
            have : s ≠ p := by
              intro e; apply hb; rw [hq, e]
            simp [this]
        cases hcb : hasId st.2 (b.place_id.getD "") with
        | false =>
          have : dedupStep st b = (st.1 ++ [b], st.2 ++ [b.place_id.getD ""]) := by
            simp [dedupStep, ht, hcb]
          rw [this]
          simp [hasId_append, hasId, hne, hbb]
        | true =>
          have : dedupStep st b = st := by
            simp [dedupStep, ht, hcb]
          rw [this]
          simp [hbb]
      · have ht' : strTruthy b.place_id = false := by
          cases h : strTruthy b.place_id
          · rfl
          · exact absurd h ht
        have : dedupStep st b = (st.1 ++ [b], st.2) := by
          simp [dedupStep, ht']
        rw [this]
        simp [hbb]

/-- Identifier-less results pass through the fold untouched. -/
theorem dedup_filter_noid :
    ∀ (bs : List BusinessResult) (st : List BusinessResult × List String),
      ((bs.foldl dedupStep st).1.filter (fun b => !(strTruthy b.place_id)))
        = st.1.filter (fun b => !(strTruthy b.place_id))
          ++ bs.filter (fun b => !(strTruthy b.place_id)) := by
  intro bs
  induction bs with
  | nil => intro st; simp
  | cons b bs ih =>
    intro st
    rw [List.foldl_cons, ih]
    cases ht : strTruthy b.place_id with
    | true =>
      cases hcb : hasId st.2 (b.place_id.getD "") with
      | false =>
        have : dedupStep st b = (st.1 ++ [b], st.2 ++ [b.place_id.getD ""]) := by
          simp [dedupStep, ht, hcb]
        rw [this]; simp [ht]
      | true =>
        have : dedupStep st b = st := by
          simp [dedupStep, ht, hcb]
        rw [this]; simp [ht]
    | false =>
      have : dedupStep st b = (st.1 ++ [b], st.2) := by
        simp [dedupStep, ht]
      rw [this]; simp [ht]

/-- Claim C3: the orchestrator's accumulated collection is deduplicated
by place identifier with first-seen-wins — of all results carrying the
same non-empty identifier only the first inserted is retained — and
every result whose identifier is absent (falsy) is always retained. -/
theorem C3_dedup_first_seen (bs : List BusinessResult) (p : String)
    (hp : p ≠ "") :
    (dedupRun bs).filter (fun b => b.place_id == some p)
        = (bs.filter (fun b => b.place_id == some p)).take 1
    ∧ (dedupRun bs).filter (fun b => !(strTruthy b.place_id))
        = bs.filter (fun b => !(strTruthy b.place_id)) := by
  constructor
  · have h := dedup_filter_id p hp bs ([], [])
    simpa [dedupRun, hasId] using h
  · have h := dedup_filter_noid bs ([], [])
    simpa [dedupRun] using h

/-- A minimal concrete result used to instantiate the dedup theorems. -/
def mkRes (nm : String) (pid : Option String) : BusinessResult :=
  { name := nm
    type := "cafe"
    hasNoWebsite := true
    hasSocialOnly := false
    website := none
    address := none
    phone := none
    rating := none
    totalRatings := none
    latLng := none
    place_id := pid
    searchLocation := none }

/-- Claim C3, witness: on a run that yields two results with place
identifier `X` and two identifier-less duplicates, only the first `X`
survives and both identifier-less results survive. -/
theorem C3_dedup_first_seen_witness :
    (dedupRun [mkRes "a" (some "X"), mkRes "b" (some "X"),
        mkRes "c" none, mkRes "c" none]).filter
        (fun b => b.place_id == some "X")
      = ([mkRes "a" (some "X"), mkRes "b" (some "X"),
        mkRes "c" none, mkRes "c" none].filter
        (fun b => b.place_id == some "X")).take 1
    ∧ (dedupRun [mkRes "a" (some "X"), mkRes "b" (some "X"),
        mkRes "c" none, mkRes "c" none]).filter
        (fun b => !(strTruthy b.place_id))
      = [mkRes "a" (some "X"), mkRes "b" (some "X"),
        mkRes "c" none, mkRes "c" none].filter
        (fun b => !(strTruthy b.place_id)) :=
  C3_dedup_first_seen
    [mkRes "a" (some "X"), mkRes "b" (some "X"),
      mkRes "c" none, mkRes "c" none] "X" (by decide)

/-- A minimal place stub as returned by the nearby search
(`{ place_id?: string; name?: string }`). -/
structure PlaceStub where
  place_id : Option String
  name : Option String
deriving Repr, DecidableEq

/-- The upstream answer to one nearby-search page request:
`response.data.results` and `response.data.next_page_token`. -/
structure PageResponse where
  results : List PlaceStub
  next_page_token : Option String
deriving Repr, DecidableEq

/-- The parameters of one `placesNearby` request built by the paginating
`searchNearbyPlaces` (the `key` credential is omitted). -/
structure NearbyRequest where
  location : Option Int × Option Int
  radius : Int
  keyword : String
  type : String
  pagetoken : Option String
deriving Repr, DecidableEq

/-- One observable step of the paginator: a pure sleep of `ms`
milliseconds, or an issued page request. -/
inductive SearchEvent where
  | delay : Nat → SearchEvent
  | request : NearbyRequest → SearchEvent
deriving Repr, DecidableEq

/-- The request parameters of one loop iteration: `pagetoken` is set
only when a (truthy) continuation token is on hand. -/
def mkRequest (loc : Option Int × Option Int) (radius : Int)
    (keyword : String) (token : Option String) : NearbyRequest :=
  { location := loc
    radius := radius
    keyword := keyword
    type := "car_repair"
    pagetoken := if strTruthy token then token else none }

/-- The cool-down the loop awaits before a request that reuses a
continuation token: a 2000 ms sleep, and nothing otherwise. -/
def searchPre (token : Option String) : List SearchEvent :=
  if strTruthy token then [SearchEvent.delay 2000] else []

/-- The `do … while (nextPageToken && currentPage < MAX_PAGES)` loop of
the library variant's `searchNearbyPlaces`, embedded with `fuel` =
number of further pages the `currentPage < MAX_PAGES` bound still
allows, `page` = index of the current request (used to query the page
oracle `resp`), and `token` = the continuation token on hand.  Returns
the emitted event trace and the accumulated places. -/
def searchPages (resp : Nat → PageResponse) (loc : Option Int × Option Int)
    (radius : Int) (keyword : String) :
    Nat → Nat → Option String → List SearchEvent × List PlaceStub
  | 0, page, token =>
      (searchPre token ++ [SearchEvent.request (mkRequest loc radius keyword token)],
        (resp page).results)
  | Nat.succ f, page, token =>
      let r := resp page
      if strTruthy r.next_page_token then
        let rest := searchPages resp loc radius keyword f (page + 1) r.next_page_token
        (searchPre token
            ++ SearchEvent.request (mkRequest loc radius keyword token) :: rest.1,
          r.results ++ rest.2)
      else
        (searchPre token ++ [SearchEvent.request (mkRequest loc radius keyword token)],
          r.results)

/-- `MAX_PAGES = 3` — the loop's policy constant. -/
def MAX_PAGES : Nat := 3

/-- `GoogleMapsService.searchNearbyPlaces` of the paginator variant:
run the page loop from the first request (no token) with the
`MAX_PAGES` bound. -/
def searchNearbyPlaces (resp : Nat → PageResponse)
    (loc : Option Int × Option Int) (radius : Int) (keyword : String) :
    List SearchEvent × List PlaceStub :=
  searchPages resp loc radius keyword (MAX_PAGES - 1) 0 none

/-- Whether an event is an issued page request. -/
def isReq : SearchEvent → Bool
  | SearchEvent.request _ => true
  | SearchEvent.delay _ => false

/-- Number of page requests in an event trace. -/
def countReq (evs : List SearchEvent) : Nat :=
  (evs.filter isReq).length

/-- The concatenation of the upstream pages `page, page+1, …` (`k` of
them), in page order. -/
def collectPages (resp : Nat → PageResponse) : Nat → Nat → List PlaceStub
  | _, 0 => []
  | page, k + 1 => (resp page).results ++ collectPages resp (page + 1) k

theorem filter_isReq_pre (token : Option String) :
    (searchPre token).filter isReq = [] := by
  cases h : strTruthy token <;> simp [searchPre, h, isReq]

theorem countReq_pre (token : Option String) : countReq (searchPre token) = 0 := by
  simp [countReq, filter_isReq_pre]

theorem countReq_append (a b : List SearchEvent) :
    countReq (a ++ b) = countReq a + countReq b := by
  simp [countReq]

theorem countReq_cons_req (q : NearbyRequest) (l : List SearchEvent) :
    countReq (SearchEvent.request q :: l) = countReq l + 1 := by
  simp [countReq, isReq]

theorem collectPages_succ (resp : Nat → PageResponse) (page k : Nat) :
    collectPages resp page (k + 1)
      = (resp page).results ++ collectPages resp (page + 1) k := rfl

/-- The page loop issues at most `fuel + 1` requests. -/
theorem searchPages_count (resp : Nat → PageResponse)
    (loc : Option Int × Option Int) (radius : Int) (kw : String) :
    ∀ (fuel page : Nat) (token : Option String),
      countReq (searchPages resp loc radius kw fuel page token).1 ≤ fuel + 1 := by
  intro fuel
  induction fuel with
  | zero =>
    intro page token
    simp [searchPages, countReq, filter_isReq_pre, isReq]
  | succ f ih =>
    intro page token
    cases ht : strTruthy (resp page).next_page_token with
    | false =>
      simp [searchPages, ht, countReq, filter_isReq_pre, isReq]
    | true =>
      have h := ih (page + 1) (resp page).next_page_token
      simp only [searchPages, ht, if_true]
      rw [countReq_append, countReq_pre, countReq_cons_req]
      omega

/-- The page loop's accumulated places are the fetched pages
concatenated in page order (one page per issued request). -/
theorem searchPages_places (resp : Nat → PageResponse)
    (loc : Option Int × Option Int) (radius : Int) (kw : String) :
    ∀ (fuel page : Nat) (token : Option String),
      (searchPages resp loc radius kw fuel page token).2
        = collectPages resp page
            (countReq (searchPages resp loc radius kw fuel page token).1) := by
  intro fuel
  induction fuel with
  | zero =>
    intro page token
    simp [searchPages, countReq, filter_isReq_pre, isReq, collectPages]
  | succ f ih =>
    intro page token
    cases ht : strTruthy (resp page).next_page_token with
    | false =>
      simp [searchPages, ht, countReq, filter_isReq_pre, isReq, collectPages]
    | true =>
      have h := ih (page + 1) (resp page).next_page_token
      simp only [searchPages, ht, if_true]
      rw [countReq_append, countReq_pre, countReq_cons_req, Nat.zero_add,
        collectPages_succ]
      exact congrArg (fun l => (resp page).results ++ l) h

/-- Claim C5: for every page oracle — in particular one that always
returns a continuation token — the paginator issues at most 3 page
requests, and its result is the concatenation of the fetched pages'
stubs in page order. -/
theorem C5_pagination_bound (resp : Nat → PageResponse)
    (loc : Option Int × Option Int) (radius : Int) (kw : String) :
    countReq (searchNearbyPlaces resp loc radius kw).1 ≤ 3
    ∧ (searchNearbyPlaces resp loc radius kw).2
        = collectPages resp 0 (countReq (searchNearbyPlaces resp loc radius kw).1) := by
  constructor
  · exact searchPages_count resp loc radius kw (MAX_PAGES - 1) 0 none
  · exact searchPages_places resp loc radius kw (MAX_PAGES - 1) 0 none

/-- Temporal discipline of a paginator trace: every issued request that
carries a continuation token is immediately preceded by a 2000 ms
cool-down sleep, every delay is immediately followed by such a tokened
request, and a request not preceded by a delay carries no token. -/
def wellDelayed : List SearchEvent → Bool
  | [] => true
  | SearchEvent.delay m :: SearchEvent.request r :: rest =>
      (m == 2000) && r.pagetoken.isSome && wellDelayed rest
  | SearchEvent.request r :: rest => (r.pagetoken == none) && wellDelayed rest
  | SearchEvent.delay _ :: rest => wellDelayed rest

theorem strTruthy_none : strTruthy none = false := rfl

theorem strTruthy_isSome (t : Option String) (h : strTruthy t = true) :
    t.isSome = true := by
  cases t with
  | none => exact absurd h (by simp [strTruthy])
  | some s => rfl

/-- Every trace of the page loop observes the cool-down discipline. -/
theorem searchPages_wellDelayed (resp : Nat → PageResponse)
    (loc : Option Int × Option Int) (radius : Int) (kw : String) :
    ∀ (fuel page : Nat) (token : Option String),
      wellDelayed (searchPages resp loc radius kw fuel page token).1 = true := by
  intro fuel
  induction fuel with
  | zero =>
    intro page token
    cases ht : strTruthy token with
    | false => simp [searchPages, searchPre, mkRequest, ht, wellDelayed]
    | true =>
      simp [searchPages, searchPre, mkRequest, ht, wellDelayed,
        strTruthy_isSome token ht]
  | succ f ih =>
    intro page token
    cases hn : strTruthy (resp page).next_page_token with
    | false =>
      cases ht : strTruthy token with
      | false => simp [searchPages, searchPre, mkRequest, ht, hn, wellDelayed]
      | true =>
        simp [searchPages, searchPre, mkRequest, ht, hn, wellDelayed,
          strTruthy_isSome token ht]
    | true =>
      have h := ih (page + 1) (resp page).next_page_token
      cases ht : strTruthy token with
      | false =>
        simp only [searchPages, hn, if_true]
        simp [searchPre, mkRequest, ht, wellDelayed, h]
      | true =>
        simp only [searchPages, hn, if_true]
        simp [searchPre, mkRequest, ht, wellDelayed, h,
          strTruthy_isSome token ht]

/-- Claim C7: on every paginated search, a follow-up request carrying a
continuation token is always immediately preceded in the trace by the
fixed 2000 ms cool-down sleep, and the trace opens with the initial
request, which carries no token and is preceded by nothing. -/
theorem C7_cooldown_before_token (resp : Nat → PageResponse)
    (loc : Option Int × Option Int) (radius : Int) (kw : String) :
    wellDelayed (searchNearbyPlaces resp loc radius kw).1 = true
    ∧ (searchNearbyPlaces resp loc radius kw).1.head?
        = some (SearchEvent.request (mkRequest loc radius kw none)) := by
  constructor
  · exact searchPages_wellDelayed resp loc radius kw (MAX_PAGES - 1) 0 none
  · show (searchPages resp loc radius kw (MAX_PAGES - 1) 0 none).1.head? = _
    cases hn : strTruthy (resp 0).next_page_token <;>
      simp [MAX_PAGES, searchPages, searchPre, strTruthy_none, hn]

/-- Whether an event is a request with the hard-coded place type
`car_repair` and the given free-text keyword. -/
def reqShape (kw : String) : SearchEvent → Bool
  | SearchEvent.request r => (r.type == "car_repair") && (r.keyword == kw)
  | SearchEvent.delay _ => true

theorem searchPages_reqShape (resp : Nat → PageResponse)
    (loc : Option Int × Option Int) (radius : Int) (kw : String) :
    ∀ (fuel page : Nat) (token : Option String),
      (searchPages resp loc radius kw fuel page token).1.all (reqShape kw) = true := by
  intro fuel
  induction fuel with
  | zero =>
    intro page token
    cases ht : strTruthy token <;>
      simp [searchPages, searchPre, mkRequest, ht, reqShape]
  | succ f ih =>
    intro page token
    cases hn : strTruthy (resp page).next_page_token with
    | false =>
      cases ht : strTruthy token <;>
        simp [searchPages, searchPre, mkRequest, ht, hn, reqShape]
    | true =>
      have h := ih (page + 1) (resp page).next_page_token
      simp only [searchPages, hn, if_true]
      cases ht : strTruthy token <;>
        simp [searchPre, mkRequest, ht, reqShape, h]

/-- Claim C8: every request the paginator variant issues restricts the
upstream place type to the hard-coded `car_repair` and passes the
requested category only as the free-text `keyword` — the type
restriction is the same for every category argument. -/
theorem C8_hardcoded_type (resp : Nat → PageResponse)
    (loc : Option Int × Option Int) (radius : Int) (kw : String) :
    (searchNearbyPlaces resp loc radius kw).1.all (reqShape kw) = true :=
  searchPages_reqShape resp loc radius kw (MAX_PAGES - 1) 0 none

/-- `place.name || place.place_id` — the label used in the library
variant's per-place error message. -/
def wrapName (place : PlaceStub) : String :=
  if strTruthy place.name then place.name.getD "" else place.place_id.getD ""

/-- `GoogleMapsService.processBatch` of the library variant, with the
concurrent fan-out sequentialised in stub order: stubs without a truthy
`place_id` are skipped; a failed detail fetch is rethrown wrapped, which
rejects the whole `Promise.all` and so the whole batch; a successful
fetch is classified and collected when included. -/
def processBatchLib (fetch : String → Except String PlaceDetails)
    (placeType : String) (mode : FilterMode) (locName : Option String) :
    List PlaceStub → Except String (List BusinessResult)
  | [] => Except.ok []
  | place :: rest =>
    if strTruthy place.place_id = false then
      processBatchLib fetch placeType mode locName rest
    else
      match fetch (place.place_id.getD "") with
      | Except.error e =>
          Except.error ("Error processing place " ++ wrapName place ++ ": " ++ e)
      | Except.ok d =>
        match processBatchLib fetch placeType mode locName rest with
        | Except.error e => Except.error e
        | Except.ok rs =>
          match extractBusinessDetails (place.place_id.getD "") d placeType
              mode locName with
          | some b => Except.ok (b :: rs)
          | none => Except.ok rs

/-- `GoogleMapsService.getPlaceDetails` of the CLI variant: a failed
call is caught, logged, and turned into the empty record `{}`. -/
def getPlaceDetailsCli (fetch : String → Except String PlaceDetails)
    (pid : String) : PlaceDetails :=
  match fetch pid with
  | Except.ok d => d
  | Except.error _ => emptyDetails

/-- `GoogleMapsService.processBatch` of the CLI variant (sequentialised
in stub order): skips identifier-less stubs, fetches with the
error-swallowing `getPlaceDetails`, classifies with the logger
classifier, and collects the included results — it can never fail. -/
def processBatchCli (fetch : String → Except String PlaceDetails)
    (placeType : String) (socialMediaDomains : List String) :
    List PlaceStub → List BusinessResult
  | [] => []
  | place :: rest =>
    if strTruthy place.place_id = false then
      processBatchCli fetch placeType socialMediaDomains rest
    else
      match extractBusinessDetailsCli
          (getPlaceDetailsCli fetch (place.place_id.getD ""))
          placeType socialMediaDomains with
      | some b => b :: processBatchCli fetch placeType socialMediaDomains rest
      | none => processBatchCli fetch placeType socialMediaDomains rest

theorem extract_place_id (pid : String) (d : PlaceDetails) (pt : String)
    (mode : FilterMode) (loc : Option String) (b : BusinessResult)
    (h : extractBusinessDetails pid d pt mode loc = some b) :
    b.place_id = some pid := by
  unfold extractBusinessDetails at h
  by_cases hn : strTruthy d.name = false
  · simp [hn] at h
  · by_cases he : socialExcluded mode d.website = true
    · simp [hn, he] at h
    · simp [hn, he] at h
      subst h
      rfl

/-- Every result an `ok` library batch returns has a truthy identifier
taken from one of the batch's stubs. -/
theorem processBatchLib_ids (fetch : String → Except String PlaceDetails)
    (pt : String) (mode : FilterMode) (locName : Option String) :
    ∀ (places : List PlaceStub) (rs : List BusinessResult),
      processBatchLib fetch pt mode locName places = Except.ok rs →
      ∀ b ∈ rs, strTruthy b.place_id = true
        ∧ ∃ s ∈ places, s.place_id = b.place_id := by
  intro places
  induction places with
  | nil =>
    intro rs h b hb
    simp [processBatchLib] at h
    subst h
    simp at hb
  | cons p rest ih =>
    intro rs h b hb
    rw [processBatchLib] at h
    by_cases ht : strTruthy p.place_id = false
    · rw [if_pos ht] at h
      obtain ⟨hbt, s, hs, hid⟩ := ih rs h b hb
      exact ⟨hbt, s, List.mem_cons_of_mem p hs, hid⟩
    · rw [if_neg ht] at h
      cases hf : fetch (p.place_id.getD "") with
      | error e => rw [hf] at h; simp at h
      | ok d =>
        rw [hf] at h
        simp only [] at h
        cases hr : processBatchLib fetch pt mode locName rest with
        | error e => rw [hr] at h; simp at h
        | ok rs' =>
          rw [hr] at h
          simp only [] at h
          cases he : extractBusinessDetails (p.place_id.getD "") d pt mode
              locName with
          | none =>
            rw [he] at h
            simp at h
            subst h
            obtain ⟨hbt, s, hs, hid⟩ := ih rs' hr b hb
            exact ⟨hbt, s, List.mem_cons_of_mem p hs, hid⟩
          | some b0 =>
            rw [he] at h
            simp at h
            subst h
            cases List.mem_cons.mp hb with
            | inl hb0 =>
              subst hb0
              have hpid := extract_place_id _ _ _ _ _ _ he
              have htr : strTruthy p.place_id = true := by
                cases hx : strTruthy p.place_id
                · exact absurd hx ht
                · rfl
              cases hq : p.place_id with
              | none => rw [hq] at htr; simp [strTruthy] at htr
              | some s0 =>
                refine ⟨?_, p, List.mem_cons_self p rest, ?_⟩
                · rw [hpid, hq]
                  simpa [strTruthy, hq] using htr
                · rw [hpid, hq]
                  rfl
            | inr hbr =>
              obtain ⟨hbt, s, hs, hid⟩ := ih rs' hr b hbr
              exact ⟨hbt, s, List.mem_cons_of_mem p hs, hid⟩

/-- Identifier-less stubs are skipped: filtering them away first does
not change the library batch's outcome. -/
theorem processBatchLib_skips (fetch : String → Except String PlaceDetails)
    (pt : String) (mode : FilterMode) (locName : Option String) :
    ∀ (places : List PlaceStub),
      processBatchLib fetch pt mode locName
        (places.filter (fun s => strTruthy s.place_id))
      = processBatchLib fetch pt mode locName places := by
  intro places
  induction places with
  | nil => rfl
  | cons p rest ih =>
    cases ht : strTruthy p.place_id with
    | false =>
      rw [List.filter_cons]
      simp only [ht, Bool.false_eq_true, if_false]
      rw [ih, processBatchLib, if_pos ht]
    | true =>
      rw [List.filter_cons]
      simp only [ht, if_true]
      rw [processBatchLib, processBatchLib]
      have hnt : ¬ (strTruthy p.place_id = false) := by rw [ht]; simp
      rw [if_neg hnt, if_neg hnt, ih]

/-- Claim C9: every `BusinessResult` an `ok` run of the library batch
processor returns carries a truthy (non-empty) `place_id` equal to the
identifier of one of the batch's stubs, and stubs without a truthy
identifier are skipped — so identifier-less results never reach the
orchestrator's deduplication step through this pipeline. -/
theorem C9_batch_place_ids (fetch : String → Except String PlaceDetails)
    (pt : String) (mode : FilterMode) (locName : Option String)
    (places : List PlaceStub) :
    (∀ rs, processBatchLib fetch pt mode locName places = Except.ok rs →
      ∀ b ∈ rs, strTruthy b.place_id = true
        ∧ ∃ s ∈ places, s.place_id = b.place_id)
    ∧ processBatchLib fetch pt mode locName
        (places.filter (fun s => strTruthy s.place_id))
      = processBatchLib fetch pt mode locName places :=
  ⟨processBatchLib_ids fetch pt mode locName places,
   processBatchLib_skips fetch pt mode locName places⟩

/-- A concrete detail record with a name and no website. -/
def detailB : PlaceDetails :=
  { name := some "B-Biz"
    website := none
    formatted_address := none
    formatted_phone_number := none
    rating := none
    user_ratings_total := none
    geometry := none }

/-- A stub whose detail fetch will fail. -/
def stubA : PlaceStub := { place_id := some "A", name := some "a" }

/-- A stub whose detail fetch succeeds. -/
def stubB : PlaceStub := { place_id := some "B", name := some "b" }

/-- A detail oracle that rejects the fetch for place `A` and answers
`detailB` for every other place. -/
def fetchAB : String → Except String PlaceDetails :=
  fun pid => if pid == "A" then Except.error "timeout" else Except.ok detailB

/-- The classified result of `detailB` discovered as place `B`. -/
def resB : BusinessResult :=
  { name := "B-Biz"
    type := "car_repair"
    hasNoWebsite := true
    hasSocialOnly := false
    website := none
    address := none
    phone := none
    rating := none
    totalRatings := none
    latLng := none
    place_id := some "B"
    searchLocation := none }

/-- Claim C4, counterexample: in the library variant's batch processor,
the failing fetch of place `A` makes the whole two-stub batch return an
error — the sibling stub `B`, which alone yields `resB`, is lost with
it, so a single fetch failure does abort the whole batch there. -/
theorem C4_counterexample :
    processBatchLib fetchAB "car_repair" (FilterMode.domains ["facebook.com"]) none
        [stubA, stubB] = Except.error "Error processing place a: timeout"
    ∧ processBatchLib fetchAB "car_repair" (FilterMode.domains ["facebook.com"]) none
        [stubB] = Except.ok [resB] := by
  constructor <;> rfl

theorem cli_step_failed (fetch : String → Except String PlaceDetails)
    (pt : String) (ds : List String) (s : PlaceStub) (rest : List PlaceStub)
    (hf : (fetch (s.place_id.getD "")).isOk = false) :
    processBatchCli fetch pt ds (s :: rest) = processBatchCli fetch pt ds rest := by
  rw [processBatchCli]
  by_cases ht : strTruthy s.place_id = false
  · rw [if_pos ht]
  · rw [if_neg ht]
    cases hfe : fetch (s.place_id.getD "") with
    | ok d => rw [hfe] at hf; simp [Except.isOk, Except.toBool] at hf
    | error e =>
      have hg : getPlaceDetailsCli fetch (s.place_id.getD "") = emptyDetails := by
        unfold getPlaceDetailsCli; rw [hfe]
      rw [hg]
      have hx : extractBusinessDetailsCli emptyDetails pt ds = none := rfl
      rw [hx]

/-- In the CLI variant, a stub whose detail fetch fails contributes
nothing: deleting it from the batch leaves the output unchanged. -/
theorem cli_isolated (fetch : String → Except String PlaceDetails)
    (pt : String) (ds : List String) (s : PlaceStub)
    (hf : (fetch (s.place_id.getD "")).isOk = false) :
    ∀ (xs ys : List PlaceStub),
      processBatchCli fetch pt ds (xs ++ s :: ys)
        = processBatchCli fetch pt ds (xs ++ ys) := by
  intro xs
  induction xs with
  | nil =>
    intro ys
    simpa using cli_step_failed fetch pt ds s ys hf
  | cons x xs ih =>
    intro ys
    rw [List.cons_append, List.cons_append, processBatchCli, processBatchCli]
    by_cases ht : strTruthy x.place_id = false
    · rw [if_pos ht, if_pos ht, ih]
    · rw [if_neg ht, if_neg ht]
      cases he : extractBusinessDetailsCli
          (getPlaceDetailsCli fetch (x.place_id.getD "")) pt ds with
      | some b => simp only []; rw [ih]
      | none => simp only []; rw [ih]

/-- In the library variant, any failing fetch of a truthy-id stub makes
the whole batch return an error. -/
theorem lib_aborts (fetch : String → Except String PlaceDetails)
    (pt : String) (mode : FilterMode) (locName : Option String) :
    ∀ (places : List PlaceStub),
      (∃ s ∈ places, strTruthy s.place_id = true
          ∧ (fetch (s.place_id.getD "")).isOk = false)
      → ∃ e, processBatchLib fetch pt mode locName places = Except.error e := by
  intro places
  induction places with
  | nil =>
    intro h
    obtain ⟨s, hs, _⟩ := h
    simp at hs
  | cons p rest ih =>
    intro h
    obtain ⟨s, hs, hst, hsf⟩ := h
    rw [processBatchLib]
    cases List.mem_cons.mp hs with
    | inl hp =>
      subst hp
      have hnt : ¬ (strTruthy s.place_id = false) := by rw [hst]; simp
      rw [if_neg hnt]
      cases hfe : fetch (s.place_id.getD "") with
      | error e => exact ⟨_, rfl⟩
      | ok d => rw [hfe] at hsf; simp [Except.isOk, Except.toBool] at hsf
    | inr hr =>
      by_cases ht : strTruthy p.place_id = false
      · rw [if_pos ht]
        exact ih ⟨s, hr, hst, hsf⟩
      · rw [if_neg ht]
        cases hfe : fetch (p.place_id.getD "") with
        | error e => exact ⟨_, rfl⟩
        | ok d =>
          simp only []
          obtain ⟨e, he⟩ := ih ⟨s, hr, hst, hsf⟩
          rw [he]
          exact ⟨e, rfl⟩

/-- Claim C4, amended: partial-failure isolation holds only in the CLI
variant — there a stub whose detail fetch fails is dropped and every
other stub's classified result is still returned; in the library
variant a single failing detail fetch of a truthy-id stub rejects the
whole `Promise.all`, so the whole batch returns an error instead of the
sibling results. -/
theorem C4_partial_failure (fetch : String → Except String PlaceDetails)
    (pt : String) (ds : List String) (xs ys : List PlaceStub) (s : PlaceStub)
    (hf : (fetch (s.place_id.getD "")).isOk = false)
    (mode : FilterMode) (locName : Option String) (places : List PlaceStub) :
    processBatchCli fetch pt ds (xs ++ s :: ys)
        = processBatchCli fetch pt ds (xs ++ ys)
    ∧ ((∃ s' ∈ places, strTruthy s'.place_id = true
          ∧ (fetch (s'.place_id.getD "")).isOk = false)
        → ∃ e, processBatchLib fetch pt mode locName places = Except.error e) :=
  ⟨cli_isolated fetch pt ds s hf xs ys,
   lib_aborts fetch pt mode locName places⟩

/-- Claim C4 (amended), witness: with the oracle that fails on place
`A`, the CLI batch `[B, A]` equals the CLI batch `[B]`, and the library
batch `[A, B]` returns an error. -/
theorem C4_partial_failure_witness :
    processBatchCli fetchAB "car_repair" ["facebook.com"] ([stubB] ++ stubA :: [])
        = processBatchCli fetchAB "car_repair" ["facebook.com"] ([stubB] ++ [])
    ∧ ∃ e, processBatchLib fetchAB "car_repair"
        (FilterMode.domains ["facebook.com"]) none [stubA, stubB]
        = Except.error e :=
  have h := C4_partial_failure fetchAB "car_repair" ["facebook.com"] [stubB] []
    stubA (by rfl) (FilterMode.domains ["facebook.com"]) none [stubA, stubB]
  ⟨h.1, h.2 ⟨stubA, by simp, by rfl, by rfl⟩⟩

/-- Claim C9, witness: the singleton batch `[B]` returns `[resB]`,
whose `place_id` is truthy and is the identifier of stub `B`. -/
theorem C9_batch_place_ids_witness :
    strTruthy resB.place_id = true ∧ ∃ s ∈ [stubB], s.place_id = resB.place_id :=
  (C9_batch_place_ids fetchAB "car_repair" (FilterMode.domains ["facebook.com"])
      none [stubB]).1 [resB] (by rfl) resB (by simp)

/-- `SearchOptions` after merging with defaults (`Required<SearchOptions>`
minus the credential): the location may be missing or carry non-numeric
coordinates at runtime, which validation must catch. -/
structure RunConfig where
  location : Option (Option Int × Option Int)
  radius : Int
  businessTypes : List String
  socialMediaDomains : List String
  batchSize : Nat
  batchDelay : Nat
deriving Repr

/-- `!location || typeof location.lat !== "number" ||
typeof location.lng !== "number"`. -/
def locationInvalid (loc : Option (Option Int × Option Int)) : Bool :=
  match loc with
  | none => true
  | some (la, ln) => !(la.isSome && ln.isSome)

/-- `BusinessFinder.validateSearchOptions`: checked in code order —
location, then radius (`!radius || radius <= 0`), then the business-type
list. -/
def validateSearchOptions (o : RunConfig) : Except String Unit :=
  if locationInvalid o.location then
    Except.error "Location with valid lat and lng is required"
  else if o.radius ≤ 0 then
    Except.error "Search radius must be a positive number"
  else if o.businessTypes.isEmpty then
    Except.error "At least one business type is required"
  else Except.ok ()

/-- `places.slice(i, i + batchSize)` chunking of the per-category loop,
with an explicit fuel argument standing for the loop counter bound. -/
def chunksGo : Nat → Nat → List PlaceStub → List (List PlaceStub)
  | _, _, [] => []
  | 0, _, _ => []
  | fuel + 1, n, l => l.take n :: chunksGo fuel n (l.drop n)

/-- Split a stub list into consecutive chunks of `n`. -/
def chunksOf (n : Nat) (l : List PlaceStub) : List (List PlaceStub) :=
  chunksGo l.length n l

/-- The per-category inner loop of `BusinessFinder.searchBusinesses` /
`searchMultipleLocations`: process the chunks in order with the library
batch processor, feeding every `ok` chunk's results through the shared
deduplicating accumulation; a batch error aborts the category. -/
def runChunks (fetch : String → Except String PlaceDetails) (placeType : String)
    (mode : FilterMode) (locName : Option String) :
    List (List PlaceStub) → (List BusinessResult × List String) →
    Except String (List BusinessResult × List String)
  | [], st => Except.ok st
  | chunk :: rest, st =>
    match processBatchLib fetch placeType mode locName chunk with
    | Except.error e => Except.error e
    | Except.ok rs => runChunks fetch placeType mode locName rest (rs.foldl dedupStep st)

/-- The per-category body of the orchestrators (sequentialised over the
`Promise.all` fan-out): paginate, chunk, process; threads the shared
dedup state and counts the nearby-search page requests issued.  Errors
are wrapped as in the code's `catch` blocks. -/
def runCategories (resp : String → Nat → PageResponse)
    (fetch : String → Except String PlaceDetails)
    (loc : Option Int × Option Int) (radius : Int) (mode : String)
    (doms : List String) (batchSize : Nat) (locName : Option String) :
    List String → (List BusinessResult × List String) → Nat →
    Except String (List BusinessResult × List String) × Nat
  | [], st, calls => (Except.ok st, calls)
  | pt :: rest, st, calls =>
    let sr := searchNearbyPlaces (resp pt) loc radius pt
    let calls' := calls + countReq sr.1
    if sr.2.isEmpty then
      runCategories resp fetch loc radius mode doms batchSize locName rest st calls'
    else
      let fm := if mode == "all" then FilterMode.all else FilterMode.domains doms
      match runChunks fetch pt fm locName (chunksOf batchSize sr.2) st with
      | Except.error e =>
          (Except.error ("Error processing place type " ++ pt ++ ": " ++ e), calls')
      | Except.ok st' =>
          runCategories resp fetch loc radius mode doms batchSize locName rest st' calls'

/-- `BusinessFinder.searchBusinesses` (single scope): validate first —
before any network request — then run all categories against the shared
dedup state.  The second component counts issued page requests. -/
def searchBusinesses (resp : String → Nat → PageResponse)
    (fetch : String → Except String PlaceDetails)
    (o : RunConfig) (mode : String) :
    Except String (List BusinessResult) × Nat :=
  match validateSearchOptions o with
  | Except.error e => (Except.error e, 0)
  | Except.ok _ =>
    let r := runCategories resp fetch (o.location.getD (none, none)) o.radius mode
      o.socialMediaDomains o.batchSize none o.businessTypes ([], []) 0
    match r.1 with
    | Except.error e =>
        (Except.error ("Error in searchBusinesses (" ++ mode ++ " mode): " ++ e), r.2)
    | Except.ok st => (Except.ok st.1, r.2)

/-- One search area of the multi-location entry point. -/
structure LocationWithRadius where
  location : Option Int × Option Int
  radius : Int
  name : Option String
deriving Repr

/-- The per-location loop of `searchMultipleLocations` (sequentialised),
threading the shared dedup state and the request count. -/
def runLocations (resp : String → Nat → PageResponse)
    (fetch : String → Except String PlaceDetails)
    (businessTypes doms : List String) (batchSize : Nat) (mode : String) :
    List LocationWithRadius → (List BusinessResult × List String) → Nat →
    Except String (List BusinessResult × List String) × Nat
  | [], st, calls => (Except.ok st, calls)
  | l :: rest, st, calls =>
    match runCategories resp fetch l.location l.radius mode doms batchSize l.name
        businessTypes st calls with
    | (Except.error e, calls') => (Except.error e, calls')
    | (Except.ok st', calls') =>
        runLocations resp fetch businessTypes doms batchSize mode rest st' calls'

/-- `BusinessFinder.searchMultipleLocations`: its only up-front check is
that the location list is non-empty; it runs `validateSearchOptions`
nowhere. -/
def searchMultipleLocations (resp : String → Nat → PageResponse)
    (fetch : String → Except String PlaceDetails)
    (locations : List LocationWithRadius) (businessTypes doms : List String)
    (batchSize : Nat) (mode : String) :
    Except String (List BusinessResult) × Nat :=
  if locations.isEmpty then
    (Except.error "At least one location is required", 0)
  else
    let r := runLocations resp fetch businessTypes doms batchSize mode locations
      ([], []) 0
    match r.1 with
    | Except.error e => (Except.error e, r.2)
    | Except.ok st => (Except.ok st.1, r.2)

/-- A page oracle whose every answer is an empty page with no token. -/
def respEmpty : String → Nat → PageResponse :=
  fun _ _ => { results := [], next_page_token := none }

/-- A detail oracle that rejects every fetch. -/
def fetchNone : String → Except String PlaceDetails :=
  fun _ => Except.error "network"

/-- A multi-location run with a negative radius. -/
def locBadRadius : LocationWithRadius :=
  { location := (some 0, some 0), radius := -5, name := none }

/-- Claim C6, counterexample: the multi-scope entry point, given the
single search area `locBadRadius` with radius `-5`, raises no
configuration error and still issues a nearby-search page request — the
run returns `ok []` with an upstream call count of 1, not an error with
call count 0. -/
theorem C6_counterexample :
    searchMultipleLocations respEmpty fetchNone [locBadRadius] ["car_repair"]
        ["facebook.com"] 5 "no-website"
      = (Except.ok [], 1) := by
  rfl

/-- Claim C6, amended: validation rejects exactly invalid coordinates,
non-positive radius, or an empty category list, and the single-scope
entry point (`searchBusinesses`) then fails before issuing any network
request (call count 0); the multi-scope entry point performs no such
validation — its only up-front check rejects the empty location list
(also before any network request). -/
theorem C6_config_validation (resp : String → Nat → PageResponse)
    (fetch : String → Except String PlaceDetails) (o : RunConfig) (mode : String)
    (bt doms : List String) (bs : Nat) (locs : List LocationWithRadius) :
    ((validateSearchOptions o).isOk = false
      ↔ (locationInvalid o.location = true ∨ o.radius ≤ 0 ∨ o.businessTypes = []))
    ∧ ((validateSearchOptions o).isOk = false →
        (searchBusinesses resp fetch o mode).2 = 0
          ∧ ∃ e, (searchBusinesses resp fetch o mode).1 = Except.error e)
    ∧ (locs = [] →
        searchMultipleLocations resp fetch locs bt doms bs mode
          = (Except.error "At least one location is required", 0)) := by
  refine ⟨?_, ?_, ?_⟩
  · unfold validateSearchOptions
    by_cases h1 : locationInvalid o.location = true
    · simp [h1, Except.isOk, Except.toBool]
    · by_cases h2 : o.radius ≤ 0
      · simp [h1, h2, Except.isOk, Except.toBool]
      · by_cases h3 : o.businessTypes.isEmpty = true
        · simp only [List.isEmpty_iff] at h3
          simp [h1, h2, h3, Except.isOk, Except.toBool, List.isEmpty_iff]
        · simp only [List.isEmpty_iff] at h3
          simp [h1, h2, h3, Except.isOk, Except.toBool, List.isEmpty_iff]
  · intro hv
    cases he : validateSearchOptions o with
    | ok u => rw [he] at hv; simp [Except.isOk, Except.toBool] at hv
    | error e =>
      constructor
      · show (searchBusinesses resp fetch o mode).2 = 0
        unfold searchBusinesses
        rw [he]
      · refine ⟨e, ?_⟩
        unfold searchBusinesses
        rw [he]
  · intro hl
    subst hl
    rfl

/-- A single-scope configuration that is invalid: radius `-5`. -/
def cfgBad : RunConfig :=
  { location := some (some 0, some 0)
    radius := -5
    businessTypes := ["car_repair"]
    socialMediaDomains := ["facebook.com"]
    batchSize := 5
    batchDelay := 200 }

/-- Claim C6 (amended), witness: with radius `-5`, the single-scope run
fails with zero upstream calls, and the empty location list is rejected
by the multi-scope entry point. -/
theorem C6_config_validation_witness :
    (searchBusinesses respEmpty fetchNone cfgBad "no-website").2 = 0
    ∧ (∃ e, (searchBusinesses respEmpty fetchNone cfgBad "no-website").1
        = Except.error e)
    ∧ searchMultipleLocations respEmpty fetchNone [] ["car_repair"]
        ["facebook.com"] 5 "no-website"
      = (Except.error "At least one location is required", 0) :=
  have h := C6_config_validation respEmpty fetchNone cfgBad "no-website"
    ["car_repair"] ["facebook.com"] 5 []
  ⟨(h.2.1 (by decide)).1, (h.2.1 (by decide)).2, h.2.2 rfl⟩
